import Mathlib

/-!
Verification development for the `global-search` service (`src/main.rs`):
an mdBook documentation indexer with an HTTP full-text search endpoint.

The embedding models:
- the schema and the indexed documents (five stored fields);
- the startup indexing pipeline `run` (per-corpus build / read / strip /
  parse / add-documents, fail-fast error propagation via `quick_main!`);
- the byte-slicing `&index[16..index.len() - 1]` that strips the non-JSON
  wrapper from `searchindex.js`;
- the query-serving path: the dispatcher `query`, the worker
  `QueryExecutor::handle`, the tantivy `TopCollector` kept as a worker
  field, and the JSON response serialization loop.

External collaborators (tantivy search internals, serde parsing, mdBook
building, file I/O) are modelled as explicit environment data or, where
their behaviour decides a claim, as definitions whose doc comments say so.
-/

/-- One source document record, as stored in the elasticlunr document
store of a corpus: the three text fields read at `src/main.rs:82-84`. -/
structure DocRecord where
  title : String
  breadcrumbs : String
  body : String
  deriving Repr, DecidableEq

/-- Modelled from the spec: the per-corpus Source Document Collection
(the `DocumentStore` of the elasticlunr crate, deserialized at
`src/main.rs:71`): a `save` flag for the whole collection and a mapping
from document reference to record, here an association list. -/
structure DocumentStore where
  save : Bool
  docs : List (String × DocRecord)
  deriving Repr, DecidableEq

/-- The persisted unit of the index: one value per schema field
(`book`, `section`, `title`, `breadcrumbs`, `body`), all stored.
`sect` stands for the source field named `section` (a Lean keyword). -/
structure IndexedDoc where
  book : String
  sect : String
  title : String
  breadcrumbs : String
  body : String
  deriving Repr, DecidableEq

/-- The indexing loop body at `src/main.rs:78-86`: for every
`(doc_ref, doc_fields)` pair of the document store, one document is added
with `book` set to the corpus path, `section` to the reference, and the
three text fields copied from the record. -/
def indexDocs (path : String) (ds : DocumentStore) : List IndexedDoc :=
  ds.docs.map (fun p =>
    { book := path, sect := p.1, title := p.2.title,
      breadcrumbs := p.2.breadcrumbs, body := p.2.body })

/-- Modelled from Rust `str::is_char_boundary` (the check performed by
byte-range slicing of a `String`): position 0 and the length are
boundaries; an in-range position is a boundary exactly when the byte
there is not a UTF-8 continuation byte (`b < 0x80 || b >= 0xC0`). -/
def isCharBoundary (bytes : List Nat) (i : Nat) : Bool :=
  if i = 0 ∨ i = bytes.length then true
  else
    match bytes[i]? with
    | none => false
    | some b => decide (b < 0x80 ∨ 0xC0 ≤ b)

/-- The wrapper-stripping slice `&index[16..index.len() - 1]` at
`src/main.rs:68`, on the UTF-8 bytes of the file. `none` models the
panic of Rust slice indexing: the range must satisfy
`16 ≤ len - 1 ≤ len` and both endpoints must be char boundaries,
otherwise the thread panics instead of returning an error. -/
def stripWrapper (bytes : List Nat) : Option (List Nat) :=
  if 16 ≤ bytes.length - 1 ∧ bytes.length - 1 ≤ bytes.length ∧
      isCharBoundary bytes 16 = true ∧
      isCharBoundary bytes (bytes.length - 1) = true then
    some ((bytes.take (bytes.length - 1)).drop 16)
  else
    none

/-- The environment of one iteration of the corpus loop at
`src/main.rs:56-88`: the corpus path, whether `MDBook::load` + `build`
succeed (lines 58-61), the bytes of `book/searchindex.js` if reading it
succeeds (lines 64-67), and the document store if the serde parsing
chain of lines 69-71 succeeds on the stripped content. -/
structure CorpusInput where
  path : String
  buildOk : Bool
  fileContent : Option (List Nat)
  parseResult : Option DocumentStore
  deriving Repr, DecidableEq

/-- Outcome of processing one corpus in the startup loop:
documents added (possibly none), an `Err` propagated by `?`, or a panic
of the wrapper-stripping slice. -/
inductive CorpusOutcome where
  | ok (docs : List IndexedDoc)
  | err
  | panic
  deriving Repr, DecidableEq

/-- One iteration of the corpus loop at `src/main.rs:56-88`: build the
book (`?` on failure), read `searchindex.js` (`?` on failure), strip the
wrapper by slicing (panic when the slice is invalid), parse the document
store (`?` on failure), then either skip the corpus when `save` is false
(lines 73-76) or add one document per record (lines 78-86). -/
def processCorpus (c : CorpusInput) : CorpusOutcome :=
  if c.buildOk = false then .err
  else
    match c.fileContent with
    | none => .err
    | some bytes =>
      match stripWrapper bytes with
      | none => .panic
      | some _ =>
        match c.parseResult with
        | none => .err
        | some ds =>
          if ds.save = false then .ok [] else .ok (indexDocs c.path ds)

/-- Outcome of `run` up to the point where the HTTP server is bound
(`src/main.rs:118`): either the index is committed and the listener
starts, or the process terminates early with an `Err` (mapped by
`quick_main!` to a nonzero exit) or a panic. -/
inductive RunOutcome where
  | started (index : List IndexedDoc)
  | failed
  | panicked
  deriving Repr, DecidableEq

/-- The startup corpus loop, accumulating added documents; the first
failing corpus aborts the whole run (`?` propagation out of `run`),
a slice panic aborts the thread; only after all corpora succeed is the
index committed and the listener bound. -/
def runStartupGo (acc : List IndexedDoc) : List CorpusInput → RunOutcome
  | [] => .started acc
  | c :: rest =>
    match processCorpus c with
    | .ok docs => runStartupGo (acc ++ docs) rest
    | .err => .failed
    | .panic => .panicked

/-- The startup phase of `run` (`src/main.rs:33-122`) over the given
corpus environments, starting from an empty index. -/
def runStartup (cs : List CorpusInput) : RunOutcome :=
  runStartupGo [] cs

/-- Process exit status: `quick_main!` (`src/main.rs:206`) exits 1 on an
`Err` from `run`; a panic in the main thread terminates the process with
exit status 101; a successful startup serves (exit 0 on shutdown). -/
def exitCode : RunOutcome → Nat
  | .started _ => 0
  | .failed => 1
  | .panicked => 101

/-- Whether the HTTP listener was ever bound: true only when startup ran
to completion (`HttpServer...bind` at `src/main.rs:118` is reached only
after the corpus loop, commit and `load_searchers` succeed). -/
def listenerBound : RunOutcome → Bool
  | .started _ => true
  | _ => false

/-!
Serve phase. Relevance scores are modelled as integers (any linearly
ordered score type works for the ordering claims); an internal document
address is modelled as the position of the document in the committed
index, so one search hit is a pair `(score, address)`.
-/

/-- Modelled from the spec: the ranking collector of one worker
(tantivy `TopCollector::with_limit(10)` at `src/main.rs:101`): it
retains only the `limit` highest-scoring matches seen so far, in an
unordered buffer (the heap). Per the spec design note, one instance
lives for the whole worker lifetime and nothing clears the buffer
between searches. -/
structure TopCollector where
  limit : Nat
  heap : List (Int × Nat)
  deriving Repr, DecidableEq

/-- `TopCollector::with_limit`: an empty collector with the given
capacity. -/
def TopCollector.withLimit (limit : Nat) : TopCollector :=
  { limit := limit, heap := [] }

/-- The smallest score currently retained (the peek of the min-heap);
only meaningful for a nonempty heap. -/
def minScoreOf : List (Int × Nat) → Int
  | [] => 0
  | e :: rest => rest.foldl (fun m x => min m x.1) e.1

/-- Replace the first retained entry that has the given (minimal) score
by the new entry, keeping the buffer size unchanged. -/
def replaceFirstMin (m : Int) (e : Int × Nat) : List (Int × Nat) → List (Int × Nat)
  | [] => []
  | x :: xs => if x.1 = m then e :: xs else x :: replaceFirstMin m e xs

/-- Modelled from the spec: `TopCollector::collect` on one scored hit:
below capacity the hit is pushed; at capacity it replaces the retained
minimum only when its score is strictly greater. -/
def TopCollector.collect (c : TopCollector) (score : Int) (addr : Nat) : TopCollector :=
  if c.heap.length < c.limit then
    { c with heap := (score, addr) :: c.heap }
  else if minScoreOf c.heap < score then
    { c with heap := replaceFirstMin (minScoreOf c.heap) (score, addr) c.heap }
  else c

/-- Feeding every hit of one search into the collector, in index
traversal order (`searcher.search(&*query, &mut self.collector)` at
`src/main.rs:186`): the collector state carries over from its previous
contents. -/
def runCollect (c : TopCollector) (ms : List (Int × Nat)) : TopCollector :=
  ms.foldl (fun acc m => acc.collect m.1 m.2) c

/-- The ranked output order: strictly greater score first, ties by
ascending internal document address (the stable deterministic
tie-breaking order the spec requires of the collector). -/
def scoreOrder (a b : Int × Nat) : Prop :=
  b.1 < a.1 ∨ (a.1 = b.1 ∧ a.2 ≤ b.2)

instance : DecidableRel scoreOrder := fun a b => by
  unfold scoreOrder; infer_instance

instance : IsTotal (Int × Nat) scoreOrder := ⟨by
  intro a b
  unfold scoreOrder
  omega⟩

instance : IsTrans (Int × Nat) scoreOrder := ⟨by
  intro a b c hab hbc
  unfold scoreOrder at hab hbc ⊢
  omega⟩

/-- Modelled from the spec: `TopCollector::score_docs`, the retained
hits sorted into ranked order (descending score, ties by ascending
address). -/
def TopCollector.scoreDocs (c : TopCollector) : List (Int × Nat) :=
  List.insertionSort scoreOrder c.heap

/-- `TopCollector::docs` (`src/main.rs:191`): the ranked document
addresses. -/
def TopCollector.docs (c : TopCollector) : List Nat :=
  c.scoreDocs.map Prod.snd

/-- Remove the last character of a string: Rust `String::pop` at
`src/main.rs:199`. -/
def popLastChar (s : String) : String :=
  String.mk s.data.dropLast

/-- A minimal JSON string escaping (quote and backslash), standing for
the escaping serde applies to stored field values. -/
def escChar (ch : Char) : String :=
  if ch = '\"' then "\\\"" else if ch = '\\' then "\\\\" else String.singleton ch

/-- Escape a stored field value for inclusion in the JSON body. -/
def escapeJson (s : String) : String :=
  String.join (s.data.map escChar)

/-- Modelled from the spec: `schema.to_json(&retrieved_doc)` at
`src/main.rs:194` — one JSON object per result carrying the stored
values of the five schema fields (tantivy renders each field as an
array of values). -/
def toJson (d : IndexedDoc) : String :=
  "\x7b\"book\":[\"" ++ escapeJson d.book ++ "\"],\"section\":[\"" ++ escapeJson d.sect ++
    "\"],\"title\":[\"" ++ escapeJson d.title ++ "\"],\"breadcrumbs\":[\"" ++
    escapeJson d.breadcrumbs ++ "\"],\"body\":[\"" ++ escapeJson d.body ++ "\"]\x7d"

/-- The response body construction loop at `src/main.rs:190-200`: start
from `"["`, append each result object followed by a comma, pop the last
character, then append `"]\n"`. -/
def serializeBody (jsons : List String) : String :=
  popLastChar (jsons.foldl (fun acc j => acc ++ j ++ ",") "[") ++ "]\n"

/-- Retrieve the stored document at an internal address
(`searcher.doc(&doc_address)?` at `src/main.rs:193`): the committed
index returns the stored field values verbatim; an unknown address is an
error. -/
def retrieveDoc (idx : List IndexedDoc) (a : Nat) : Option IndexedDoc :=
  idx[a]?

/-- Retrieve every ranked address in order; the `?` on each retrieval
makes the whole handler fail on the first error. -/
def retrieveAll (idx : List IndexedDoc) (addrs : List Nat) : Option (List IndexedDoc) :=
  addrs.mapM (retrieveDoc idx)

/-- One worker of the executor pool (`struct QueryExecutor`,
`src/main.rs:167-171`): the shared read-only index and the worker's own
collector instance, a struct field that persists across `handle` calls.
The query parser is abstracted into the `parse` argument of
`handleQuery`. -/
structure QueryExecutor where
  index : List IndexedDoc
  collector : TopCollector

/-- A freshly started worker (`src/main.rs:98-102`): the shared index
and `TopCollector::with_limit(10)`. -/
def freshExecutor (idx : List IndexedDoc) : QueryExecutor :=
  { index := idx, collector := TopCollector.withLimit 10 }

/-- `Handler<SearchQuery> for QueryExecutor::handle`
(`src/main.rs:180-203`). `parse` is the environment: for a raw query
string it gives `none` on a parse error, or the scored hits the search
produces against the committed index. On a parse error the `?` returns
early and the collector is untouched; otherwise the search feeds every
hit into the worker's persistent collector, the ranked addresses are
retrieved and the body is serialized. The worker keeps the mutated
collector in both the success and the retrieval-error case. -/
def handleQuery (parse : String → Option (List (Int × Nat)))
    (ex : QueryExecutor) (q : String) : Except Unit String × QueryExecutor :=
  match parse q with
  | none => (Except.error (), ex)
  | some ms =>
    let c := runCollect ex.collector ms
    match retrieveAll ex.index c.docs with
    | none => (Except.error (), { ex with collector := c })
    | some docs => (Except.ok (serializeBody (docs.map toJson)), { ex with collector := c })

/-- An HTTP response as the dispatcher builds it: status code, optional
custom reason phrase, optional content type, body. -/
structure HttpResp where
  status : Nat
  reason : Option String
  contentType : Option String
  body : String
  deriving Repr, DecidableEq

/-- First-match lookup of a URL query parameter
(`req.query().get("query")` at `src/main.rs:132`). -/
def lookupParam (params : List (String × String)) (k : String) : Option String :=
  match params with
  | [] => none
  | p :: rest => if p.1 = k then some p.2 else lookupParam rest k

/-- The first step of the dispatcher `query` (`src/main.rs:131-157`):
either the raw query string is submitted to the executor pool, or —
when the `query` parameter is absent — an immediate
`500 Unable to find query URL parameter` response is returned and
nothing is submitted. -/
inductive DispatchStep where
  | submitted (q : String)
  | immediate (resp : HttpResp)
  deriving Repr, DecidableEq

/-- The dispatcher's parameter extraction (`src/main.rs:131-156`). -/
def queryEndpoint (params : List (String × String)) : DispatchStep :=
  match lookupParam params "query" with
  | some q => DispatchStep.submitted q
  | none =>
    DispatchStep.immediate
      { status := 500, reason := some "Unable to find query URL parameter",
        contentType := none, body := "" }

/-- The dispatcher's mapping of the pool's answer to an HTTP response
(`src/main.rs:137-146`): a successful serialized body becomes
`200 OK` with content type `application/json`; any error from the
worker becomes `500` with reason `Error executing search query`. -/
def poolResponse (res : Except Unit String) : HttpResp :=
  match res with
  | Except.ok b =>
    { status := 200, reason := none, contentType := some "application/json", body := b }
  | Except.error _ =>
    { status := 500, reason := some "Error executing search query",
      contentType := none, body := "" }

/-!
Concrete sample data used by the closed evaluations and witnesses.
-/

/-- A sample committed index entry. -/
def exampleDoc : IndexedDoc :=
  { book := "book/first-edition", sect := "ch1", title := "Hello",
    breadcrumbs := "Hello", body := "hello world" }

/-- A sample source record. -/
def exampleRecord : DocRecord :=
  { title := "Intro", breadcrumbs := "Intro", body := "hello" }

/-- A sample document store with saving enabled. -/
def exampleStore : DocumentStore :=
  { save := true, docs := [("intro.html", exampleRecord)] }

/-- A sample document store with saving disabled. -/
def saveFalseStore : DocumentStore :=
  { save := false, docs := [("intro.html", exampleRecord)] }

/-- A sample query environment over the one-document index: the string
hello matches the document at address 0 with score 5, the string
nonexistenttermxyz parses but matches nothing, anything else fails to
parse. -/
def exampleParse : String → Option (List (Int × Nat)) := fun q =>
  if q = "hello" then some [(5, 0)]
  else if q = "nonexistenttermxyz" then some [] else none

/-- A 17-byte ASCII file content, the shortest the slice accepts. -/
def bytes17 : List Nat := List.replicate 17 48

/-- A corpus whose document store parses with saving disabled. -/
def corpusSaveFalse : CorpusInput :=
  { path := "nomicon", buildOk := true, fileContent := some bytes17,
    parseResult := some saveFalseStore }

/-- A corpus that processes successfully and contributes no documents. -/
def corpusOkEmpty : CorpusInput :=
  { path := "rust-by-example", buildOk := true, fileContent := some bytes17,
    parseResult := some { save := true, docs := [] } }

/-- A corpus whose book build fails. -/
def corpusBadBuild : CorpusInput :=
  { path := "book/second-edition", buildOk := false,
    fileContent := none, parseResult := none }

/-!
Helper lemmas shared by the claim theorems.
-/

theorem replaceFirstMin_length (m : Int) (e : Int × Nat) :
    ∀ l : List (Int × Nat), (replaceFirstMin m e l).length = l.length := by
  intro l
  induction l with
  | nil => rfl
  | cons x xs ih =>
    unfold replaceFirstMin
    split
    · simp
    · simp [ih]

theorem collect_limit (c : TopCollector) (s : Int) (a : Nat) :
    (c.collect s a).limit = c.limit := by
  unfold TopCollector.collect
  split
  · rfl
  · split <;> rfl

theorem collect_heap_length_le (c : TopCollector) (s : Int) (a : Nat)
    (h : c.heap.length ≤ c.limit) : (c.collect s a).heap.length ≤ c.limit := by
  unfold TopCollector.collect
  split
  · simp only [List.length_cons]
    omega
  · split
    · simp only [replaceFirstMin_length]
      exact h
    · exact h

theorem runCollect_limit (ms : List (Int × Nat)) :
    ∀ c : TopCollector, (runCollect c ms).limit = c.limit := by
  induction ms with
  | nil => intro c; rfl
  | cons m rest ih =>
    intro c
    show (runCollect (c.collect m.1 m.2) rest).limit = c.limit
    rw [ih, collect_limit]

theorem runCollect_heap_length_le (ms : List (Int × Nat)) :
    ∀ c : TopCollector, c.heap.length ≤ c.limit →
      (runCollect c ms).heap.length ≤ (runCollect c ms).limit := by
  induction ms with
  | nil => intro c h; exact h
  | cons m rest ih =>
    intro c h
    show (runCollect (c.collect m.1 m.2) rest).heap.length ≤ _
    exact ih _ (by rw [collect_limit]; exact collect_heap_length_le c m.1 m.2 h)

theorem scoreDocs_length (c : TopCollector) :
    c.scoreDocs.length = c.heap.length :=
  (List.perm_insertionSort scoreOrder c.heap).length_eq

theorem retrieveDoc_mem (idx : List IndexedDoc) :
    ∀ (a : Nat) (d : IndexedDoc), retrieveDoc idx a = some d → d ∈ idx := by
  induction idx with
  | nil => intro a d h; simp [retrieveDoc] at h
  | cons x xs ih =>
    intro a d h
    cases a with
    | zero =>
      simp only [retrieveDoc, List.getElem?_cons_zero, Option.some.injEq] at h
      simp [h]
    | succ n =>
      simp only [retrieveDoc, List.getElem?_cons_succ] at h
      exact List.mem_cons_of_mem x (ih n d h)

/-- Claim C5: every record of a corpus document store is indexed with
`book` set to the corpus identifier, `section` to the document
reference, and `title`, `breadcrumbs`, `body` copied verbatim from the
record; conversely every indexed document of the corpus arises this way
from some record, and retrieving a stored document returns exactly a
document of the committed index. -/
theorem indexDocs_fields_verbatim (path ref : String) (rec : DocRecord)
    (ds : DocumentStore) (hmem : (ref, rec) ∈ ds.docs) :
    ({ book := path, sect := ref, title := rec.title,
       breadcrumbs := rec.breadcrumbs, body := rec.body } : IndexedDoc)
        ∈ indexDocs path ds ∧
    (∀ d ∈ indexDocs path ds, ∃ p ∈ ds.docs,
      d = { book := path, sect := p.1, title := p.2.title,
            breadcrumbs := p.2.breadcrumbs, body := p.2.body }) ∧
    (∀ (idx : List IndexedDoc) (a : Nat) (d : IndexedDoc),
      retrieveDoc idx a = some d → d ∈ idx) := by
  refine ⟨?_, ?_, ?_⟩
  · exact List.mem_map_of_mem _ hmem
  · intro d hd
    rcases List.mem_map.mp hd with ⟨p, hp, hpd⟩
    exact ⟨p, hp, hpd.symm⟩
  · exact retrieveDoc_mem

theorem indexDocs_fields_verbatim_witness :
    ({ book := "nomicon", sect := "intro.html", title := "Intro",
       breadcrumbs := "Intro", body := "hello" } : IndexedDoc)
        ∈ indexDocs "nomicon"
            { save := true, docs := [("intro.html", ⟨"Intro", "Intro", "hello"⟩)] } ∧
    (∀ d ∈ indexDocs "nomicon"
          { save := true, docs := [("intro.html", ⟨"Intro", "Intro", "hello"⟩)] },
        ∃ p ∈ [(("intro.html" : String), (⟨"Intro", "Intro", "hello"⟩ : DocRecord))],
          d = { book := "nomicon", sect := p.1, title := p.2.title,
                breadcrumbs := p.2.breadcrumbs, body := p.2.body }) ∧
    (∀ (idx : List IndexedDoc) (a : Nat) (d : IndexedDoc),
      retrieveDoc idx a = some d → d ∈ idx) :=
  indexDocs_fields_verbatim "nomicon" "intro.html" ⟨"Intro", "Intro", "hello"⟩
    { save := true, docs := [("intro.html", ⟨"Intro", "Intro", "hello"⟩)] }
    (by simp)

/-- Claim C8: a request whose parameter list holds no `query` key gets
the immediate `500` response with reason exactly
`Unable to find query URL parameter`, and nothing is submitted to the
executor pool. -/
theorem missing_query_param_response (params : List (String × String))
    (h : ∀ p ∈ params, p.1 ≠ "query") :
    queryEndpoint params =
      DispatchStep.immediate
        { status := 500, reason := some "Unable to find query URL parameter",
          contentType := none, body := "" } ∧
    ∀ q, queryEndpoint params ≠ DispatchStep.submitted q := by
  have hlook : lookupParam params "query" = none := by
    induction params with
    | nil => rfl
    | cons p rest ih =>
      unfold lookupParam
      have hp := h p (List.mem_cons_self p rest)
      simp only [if_neg hp]
      exact ih (fun x hx => h x (List.mem_cons_of_mem p hx))
  constructor
  · unfold queryEndpoint
    rw [hlook]
  · intro q hq
    unfold queryEndpoint at hq
    rw [hlook] at hq
    exact DispatchStep.noConfusion hq

theorem missing_query_param_response_witness :
    queryEndpoint [("q", "hello"), ("page", "2")] =
      DispatchStep.immediate
        { status := 500, reason := some "Unable to find query URL parameter",
          contentType := none, body := "" } ∧
    ∀ q, queryEndpoint [("q", "hello"), ("page", "2")] ≠ DispatchStep.submitted q :=
  missing_query_param_response [("q", "hello"), ("page", "2")] (by decide)

/-- Claim C9: the dispatcher maps any error returned by the executor
pool to a `500` response with reason exactly
`Error executing search query`, and a successful pool result to a `200`
response with content type `application/json` and the serialized body. -/
theorem pool_result_mapping (e : Unit) (b : String) :
    poolResponse (Except.error e) =
      { status := 500, reason := some "Error executing search query",
        contentType := none, body := "" } ∧
    poolResponse (Except.ok b) =
      { status := 200, reason := none,
        contentType := some "application/json", body := b } :=
  ⟨rfl, rfl⟩

/-- Claim C10: the wrapper stripping of `searchindex.js` is total
exactly when the file is at least 17 bytes long and byte 16 and the
final byte lie on UTF-8 character boundaries; it then removes exactly
the first 16 bytes and the last byte; for any shorter file the slice
panics — also inside the corpus pipeline, where it yields a panic
rather than a startup error. -/
theorem stripWrapper_totality (bytes : List Nat) :
    ((stripWrapper bytes).isSome = true ↔
      (17 ≤ bytes.length ∧ isCharBoundary bytes 16 = true ∧
        isCharBoundary bytes (bytes.length - 1) = true)) ∧
    (∀ l, stripWrapper bytes = some l → l = (bytes.drop 16).dropLast) ∧
    (bytes.length < 17 → stripWrapper bytes = none) ∧
    (∀ c : CorpusInput, c.buildOk = true → c.fileContent = some bytes →
      bytes.length < 17 → processCorpus c = CorpusOutcome.panic) := by
  have hshort : bytes.length < 17 → stripWrapper bytes = none := by
    intro hlen
    unfold stripWrapper
    rw [if_neg]
    intro hc
    exact absurd hc.1 (by omega)
  refine ⟨?_, ?_, hshort, ?_⟩
  · unfold stripWrapper
    split
    · rename_i h
      simp only [Option.isSome_some, true_iff]
      exact ⟨by omega, h.2.2.1, h.2.2.2⟩
    · rename_i h
      simp only [Option.isSome_none, Bool.false_eq_true, false_iff]
      rintro ⟨h17, hb16, hbl⟩
      exact h ⟨by omega, by omega, hb16, hbl⟩
  · intro l hl
    unfold stripWrapper at hl
    split at hl
    · rename_i h
      cases hl
      have harith : bytes.length - 1 - 16 = bytes.length - 16 - 1 := by omega
      rw [List.drop_take, List.dropLast_eq_take, List.length_drop, harith]
    · cases hl
  · intro c hb hf hlen
    have hn := hshort hlen
    simp [processCorpus, hb, hf, hn]

theorem stripWrapper_totality_witness :
    stripWrapper [104, 101, 108, 108, 111] = none :=
  (stripWrapper_totality [104, 101, 108, 108, 111]).2.2.1 (by decide)

theorem runStartupGo_skip (c : CorpusInput)
    (hpc : processCorpus c = CorpusOutcome.ok []) (post : List CorpusInput) :
    ∀ (pre : List CorpusInput) (acc : List IndexedDoc),
      runStartupGo acc (pre ++ c :: post) = runStartupGo acc (pre ++ post) := by
  intro pre
  induction pre with
  | nil =>
    intro acc
    simp [runStartupGo, hpc]
  | cons d rest ih =>
    intro acc
    rw [List.cons_append, List.cons_append]
    unfold runStartupGo
    cases processCorpus d with
    | ok docs => exact ih (acc ++ docs)
    | err => rfl
    | panic => rfl

/-- Claim C6: a corpus whose document store has `save = false`
contributes zero documents (the loop logs and skips it), and removing
that corpus from the corpus list leaves the startup outcome unchanged —
the remaining corpora are still indexed and the process still starts
whenever they succeed. -/
theorem save_false_skips_corpus (pre post : List CorpusInput) (c : CorpusInput)
    (bs : List Nat) (ds : DocumentStore)
    (hb : c.buildOk = true) (hf : c.fileContent = some bs)
    (hs : (stripWrapper bs).isSome = true)
    (hp : c.parseResult = some ds) (hsave : ds.save = false) :
    processCorpus c = CorpusOutcome.ok [] ∧
    runStartup (pre ++ c :: post) = runStartup (pre ++ post) := by
  have hpc : processCorpus c = CorpusOutcome.ok [] := by
    obtain ⟨st, hst⟩ := Option.isSome_iff_exists.mp hs
    simp [processCorpus, hb, hf, hst, hp, hsave]
  exact ⟨hpc, runStartupGo_skip c hpc post pre []⟩

theorem save_false_skips_corpus_witness :
    processCorpus corpusSaveFalse = CorpusOutcome.ok [] ∧
    runStartup ([] ++ corpusSaveFalse :: [corpusOkEmpty]) =
      runStartup ([] ++ [corpusOkEmpty]) :=
  save_false_skips_corpus [] [corpusOkEmpty] corpusSaveFalse bytes17
    saveFalseStore rfl rfl (by decide) rfl rfl

theorem runStartupGo_not_started (c : CorpusInput)
    (hbad : ∀ docs, processCorpus c ≠ CorpusOutcome.ok docs) :
    ∀ (cs : List CorpusInput), c ∈ cs → ∀ acc : List IndexedDoc,
      listenerBound (runStartupGo acc cs) = false ∧
      exitCode (runStartupGo acc cs) ≠ 0 := by
  intro cs
  induction cs with
  | nil =>
    intro hmem
    exact absurd hmem (List.not_mem_nil c)
  | cons d rest ih =>
    intro hmem acc
    unfold runStartupGo
    rcases hd : processCorpus d with docs | _ | _
    · rcases List.mem_cons.mp hmem with hcd | hr
      · exact absurd hd (hcd ▸ hbad docs)
      · exact ih hr (acc ++ docs)
    · exact ⟨rfl, Nat.succ_ne_zero _⟩
    · exact ⟨rfl, Nat.succ_ne_zero _⟩

/-- Claim C7: a failure in building any corpus (book build, reading the
document-store file, or parsing it) makes the whole startup terminate
with a nonzero exit status, and the HTTP listener is never bound — no
partial service. -/
theorem corpus_failure_fail_fast (cs : List CorpusInput) (c : CorpusInput)
    (hmem : c ∈ cs)
    (hfail : c.buildOk = false ∨ c.fileContent = none ∨ c.parseResult = none) :
    listenerBound (runStartup cs) = false ∧ exitCode (runStartup cs) ≠ 0 := by
  have hbad : ∀ docs, processCorpus c ≠ CorpusOutcome.ok docs := by
    intro docs h
    rcases hfail with hb | hf | hp
    · simp [processCorpus, hb] at h
    · simp [processCorpus, hf] at h
    · simp only [processCorpus, hp] at h
      split at h
      · cases h
      · split at h
        · cases h
        · split at h
          · cases h
          · cases h
  exact runStartupGo_not_started c hbad cs hmem []

theorem corpus_failure_fail_fast_witness :
    listenerBound (runStartup [corpusOkEmpty, corpusBadBuild]) = false ∧
    exitCode (runStartup [corpusOkEmpty, corpusBadBuild]) ≠ 0 :=
  corpus_failure_fail_fast [corpusOkEmpty, corpusBadBuild] corpusBadBuild
    (by decide) (Or.inl rfl)


/-- Claim C3: for every successfully parsed query executed on a worker
whose collector has capacity 10 and is within capacity, the ranked
result sequence has length at most 10 and is ordered by non-increasing
relevance score; the served addresses are the ranked hits in order. -/
theorem results_bounded_and_sorted (c : TopCollector) (ms : List (Int × Nat))
    (hlim : c.limit = 10) (hlen : c.heap.length ≤ c.limit) :
    (runCollect c ms).docs.length ≤ 10 ∧
    (runCollect c ms).scoreDocs.Pairwise (fun a b => b.1 ≤ a.1) ∧
    (runCollect c ms).docs = (runCollect c ms).scoreDocs.map Prod.snd := by
  refine ⟨?_, ?_, rfl⟩
  · have h1 := runCollect_heap_length_le ms c hlen
    have h2 := runCollect_limit ms c
    unfold TopCollector.docs
    rw [List.length_map, scoreDocs_length]
    omega
  · have hs : (runCollect c ms).scoreDocs.Sorted scoreOrder :=
      List.sorted_insertionSort scoreOrder (runCollect c ms).heap
    exact List.Pairwise.imp (fun hab => by unfold scoreOrder at hab; omega) hs

theorem results_bounded_and_sorted_witness :
    (runCollect (TopCollector.withLimit 10) [(3, 1), (5, 2), (5, 0)]).docs.length ≤ 10 ∧
    (runCollect (TopCollector.withLimit 10)
        [(3, 1), (5, 2), (5, 0)]).scoreDocs.Pairwise (fun a b => b.1 ≤ a.1) ∧
    (runCollect (TopCollector.withLimit 10) [(3, 1), (5, 2), (5, 0)]).docs =
      (runCollect (TopCollector.withLimit 10)
        [(3, 1), (5, 2), (5, 0)]).scoreDocs.map Prod.snd :=
  results_bounded_and_sorted (TopCollector.withLimit 10) [(3, 1), (5, 2), (5, 0)]
    rfl (by decide)

/-- Claim C1 fails on the code: on a fresh worker, a successfully
parsed query matching no documents gets status 200 with content type
application/json, but the body is the two characters right-bracket
newline — not the empty JSON array — because the serialization loop
unconditionally pops the last character (meant to be a trailing comma)
and there is none, so the opening bracket itself is removed. -/
theorem empty_result_body_is_bracket_newline :
    (handleQuery exampleParse (freshExecutor [exampleDoc]) "nonexistenttermxyz").1 =
      Except.ok "]\n" ∧
    poolResponse
        (handleQuery exampleParse (freshExecutor [exampleDoc]) "nonexistenttermxyz").1 =
      { status := 200, reason := none, contentType := some "application/json",
        body := "]\n" } ∧
    ("]\n" : String) ≠ "[]\n" :=
  ⟨rfl, rfl, by decide⟩

/-- Claim C2 fails on the code: the collector persists across `handle`
calls on a worker and nothing resets it, so after a first query whose
single match was collected, a second, independent query that parses
successfully but matches no documents still returns the document
retained from the first query. -/
theorem stale_result_leaks_across_queries :
    exampleParse "nonexistenttermxyz" = some [] ∧
    (handleQuery exampleParse
        (handleQuery exampleParse (freshExecutor [exampleDoc]) "hello").2
        "nonexistenttermxyz").1 =
      Except.ok ("[" ++ toJson exampleDoc ++ "]\n") :=
  ⟨rfl, rfl⟩

/-- Claim C4 fails on the code: running the same query twice on the
same worker is not deterministic at the byte level — the persistent
collector re-collects the same match, so the second response carries
the document twice while the first carries it once. -/
theorem rerun_same_query_not_identical :
    (handleQuery exampleParse (freshExecutor [exampleDoc]) "hello").1 =
      Except.ok ("[" ++ toJson exampleDoc ++ "]\n") ∧
    (handleQuery exampleParse
        (handleQuery exampleParse (freshExecutor [exampleDoc]) "hello").2 "hello").1 =
      Except.ok ("[" ++ toJson exampleDoc ++ "," ++ toJson exampleDoc ++ "]\n") ∧
    ("[" ++ toJson exampleDoc ++ "]\n" : String) ≠
      "[" ++ toJson exampleDoc ++ "," ++ toJson exampleDoc ++ "]\n" :=
  ⟨rfl, rfl, by decide⟩
